import Mathlib

/-!
Shallow embedding of src/debug.py.

The script performs four effectful library calls in a straight line:

  flow = InstalledAppFlow.from_client_secrets_file('credentials.json', SCOPES)
  creds = flow.run_local_server(port=0)
  print('Refresh Token:', creds.refresh_token)
  with open('token.json', 'w') as token:
      token.write(creds.to_json())

The external library calls are modelled by a `World` oracle that says, for
each call, whether it succeeds (and with which credential object) or raises
a Python exception.  The observable behaviour of a run is its effect trace,
the accumulated standard output, the filesystem, and the final outcome
(normal completion or an unhandled exception).
-/

namespace SmartVoiceAI

/-- Fixed permission-scope list of src/debug.py line 8. -/
def SCOPES : List String := ["https://www.googleapis.com/auth/calendar"]

/-- An exception raised by one of the underlying library calls. -/
structure PyError where
  msg : String
deriving Repr, DecidableEq

/-- Credential object returned by `flow.run_local_server`.  Its refresh
    token may be absent (Python `None`); the library-defined serialization
    produced by `creds.to_json()` is carried as opaque data. -/
structure Credentials where
  refresh_token : Option String
  to_json : String
deriving Repr, DecidableEq

/-- Python text of the optional refresh-token field as `print` renders it:
    `None` prints as the four characters `None`. -/
def pyStr : Option String → String
  | none => "None"
  | some s => s

/-- One observable effectful step of the script. -/
inductive Effect where
  | construct_flow (secretsFile : String) (scopes : List String)
  | run_local_server (port : Nat)
  | print_line (line : String)
  | open_file (name : String) (mode : String)
  | write_file (data : String)
  | close_file (name : String)
deriving Repr, DecidableEq

/-- Oracle for the external library: the result of each effectful call.
    `flowResult` is `InstalledAppFlow.from_client_secrets_file`,
    `serverResult` is `flow.run_local_server(port=0)`, `openResult` is
    `open('token.json', 'w')`, and `writeResult` is `token.write(...)`. -/
structure World where
  flowResult : Except PyError Unit
  serverResult : Except PyError Credentials
  openResult : Except PyError Unit
  writeResult : Except PyError Unit

/-- Create or overwrite a file in the modelled filesystem. -/
def setFile : List (String × String) → String → String → List (String × String)
  | [], name, data => [(name, data)]
  | (n, d) :: fs, name, data =>
      if n = name then (n, data) :: fs else (n, d) :: setFile fs name data

/-- Look up a file's contents in the modelled filesystem. -/
def getFile : List (String × String) → String → Option String
  | [], _ => none
  | (n, d) :: fs, name => if n = name then some d else getFile fs name

/-- Observable machine state: accumulated standard output and filesystem. -/
structure ScriptState where
  stdout : String
  fs : List (String × String)
deriving Repr, DecidableEq

/-- Result of one run of the script: the effect trace, the final state,
    and either normal completion or the unhandled exception. -/
structure RunResult where
  trace : List Effect
  state : ScriptState
  outcome : Except PyError Unit

/-- Executable embedding of the module body of src/debug.py (lines 10-17).
    Each library call is consulted in order; an error at any step stops
    the run there with that error as the unhandled outcome.  The print on
    line 14 renders the refresh token as Python does, appending a newline.
    Opening `token.json` in mode `w` truncates it; the `with` block closes
    the file after the write whether or not the write raises. -/
def run_script (w : World) (s : ScriptState) : RunResult :=
  let t1 := [Effect.construct_flow "credentials.json" SCOPES]
  match w.flowResult with
  | Except.error e => ⟨t1, s, Except.error e⟩
  | Except.ok _ =>
    let t2 := t1 ++ [Effect.run_local_server 0]
    match w.serverResult with
    | Except.error e => ⟨t2, s, Except.error e⟩
    | Except.ok creds =>
      let line := "Refresh Token: " ++ pyStr creds.refresh_token
      let t3 := t2 ++ [Effect.print_line line]
      let s1 : ScriptState := ⟨s.stdout ++ line ++ "\n", s.fs⟩
      let t4 := t3 ++ [Effect.open_file "token.json" "w"]
      match w.openResult with
      | Except.error e => ⟨t4, s1, Except.error e⟩
      | Except.ok _ =>
        let s2 : ScriptState := ⟨s1.stdout, setFile s1.fs "token.json" ""⟩
        let t5 := t4 ++ [Effect.write_file creds.to_json,
                         Effect.close_file "token.json"]
        match w.writeResult with
        | Except.error e => ⟨t5, s2, Except.error e⟩
        | Except.ok _ =>
          ⟨t5, ⟨s2.stdout, setFile s2.fs "token.json" creds.to_json⟩,
            Except.ok ()⟩

/-- The script as started by the operating system.  src/debug.py reads
    neither `sys.argv` nor any environment variable, so the command line
    and the environment are received and ignored. -/
def run_script_os (argv : List String) (env : List (String × String))
    (w : World) (s : ScriptState) : RunResult :=
  run_script w s

/-- Empty initial state: no output yet, empty filesystem. -/
def s0 : ScriptState := ⟨"", []⟩

/-- Sample credential with a known refresh token. -/
def cSample : Credentials := ⟨some "1//0abc-refresh", "SERIALIZED-CREDENTIAL"⟩

/-- Sample credential whose refresh token is absent (Python `None`). -/
def cNone : Credentials := ⟨none, "SERIALIZED-WITHOUT-RT"⟩

/-- Sample library exception. -/
def eSample : PyError := ⟨"FileNotFoundError"⟩

/-- World in which every library call succeeds. -/
def wOK : World := ⟨Except.ok (), Except.ok cSample, Except.ok (), Except.ok ()⟩

/-- World in which every call succeeds and the credential has no refresh
    token. -/
def wNone : World := ⟨Except.ok (), Except.ok cNone, Except.ok (), Except.ok ()⟩

/-- World in which the flow constructor raises. -/
def wFlowErr : World :=
  ⟨Except.error eSample, Except.ok cSample, Except.ok (), Except.ok ()⟩

/-- World in which the local authorization server raises. -/
def wServerErr : World :=
  ⟨Except.ok (), Except.error eSample, Except.ok (), Except.ok ()⟩

/-- World in which opening token.json raises. -/
def wOpenErr : World :=
  ⟨Except.ok (), Except.ok cSample, Except.error eSample, Except.ok ()⟩

/-- World in which the file write raises. -/
def wWriteErr : World :=
  ⟨Except.ok (), Except.ok cSample, Except.ok (), Except.error eSample⟩

/-- Writing a file and then looking it up yields exactly what was written. -/
theorem getFile_setFile (fs : List (String × String)) (n d : String) :
    getFile (setFile fs n d) n = some d := by
  induction fs with
  | nil => simp [setFile, getFile]
  | cons hd tl ih =>
    obtain ⟨m, e⟩ := hd
    by_cases h : m = n <;> simp [setFile, getFile, h, ih]

/-- Claim C1: in every run in which the authorization flow returns a
    credential object with a known refresh-token value, the script prints
    to standard output exactly that value prefixed by the fixed label
    `Refresh Token:` (and a separating space, as Python's `print` with two
    arguments inserts), followed by a newline. -/
theorem refresh_token_printed (w : World) (s : ScriptState) (c : Credentials)
    (rt : String) (h1 : w.flowResult = Except.ok ())
    (h2 : w.serverResult = Except.ok c) (h3 : c.refresh_token = some rt) :
    (run_script w s).state.stdout = s.stdout ++ "Refresh Token: " ++ rt ++ "\n" ∧
    Effect.print_line ("Refresh Token: " ++ rt) ∈ (run_script w s).trace := by
  cases ho : w.openResult <;> cases hw : w.writeResult <;>
    simp [run_script, h1, h2, h3, ho, hw, pyStr, String.append_assoc]

/-- Witness for C1 at a concrete successful world. -/
theorem refresh_token_printed_witness :
    (run_script wOK s0).state.stdout
        = "" ++ "Refresh Token: " ++ "1//0abc-refresh" ++ "\n" ∧
    Effect.print_line ("Refresh Token: " ++ "1//0abc-refresh")
        ∈ (run_script wOK s0).trace :=
  refresh_token_printed wOK s0 cSample "1//0abc-refresh" rfl rfl rfl

/-- Claim C2: in every run that performs the save step, the contents of
    token.json are byte-for-byte the credential object's own serialized
    form, nothing added or removed. -/
theorem token_file_contents (w : World) (s : ScriptState) (c : Credentials)
    (h1 : w.flowResult = Except.ok ()) (h2 : w.serverResult = Except.ok c)
    (h3 : w.openResult = Except.ok ()) (h4 : w.writeResult = Except.ok ()) :
    getFile (run_script w s).state.fs "token.json" = some c.to_json := by
  simp [run_script, h1, h2, h3, h4, getFile_setFile]

/-- Witness for C2 at a concrete successful world. -/
theorem token_file_contents_witness :
    getFile (run_script wOK s0).state.fs "token.json"
      = some "SERIALIZED-CREDENTIAL" :=
  token_file_contents wOK s0 cSample rfl rfl rfl rfl

/-- Claim C3 as stated is false: there is no execution of the script that
    completes successfully yet writes no credential file.  The write on
    line 17 is unconditional, so the save step is not optional. -/
theorem serialization_not_optional :
    ¬ ∃ (w : World) (s : ScriptState),
        (run_script w s).outcome = Except.ok () ∧
        ∀ d, Effect.write_file d ∉ (run_script w s).trace := by
  rintro ⟨⟨f, sv, op, wr⟩, s, hok, hno⟩
  cases f <;> cases sv <;> cases op <;> cases wr <;>
    simp [run_script] at hok hno

/-- Claim C3 amended: the save step is unconditional — every execution
    that completes without an unhandled exception writes the serialized
    credential to token.json. -/
theorem save_unconditional (w : World) (s : ScriptState) (c : Credentials)
    (h2 : w.serverResult = Except.ok c)
    (hok : (run_script w s).outcome = Except.ok ()) :
    Effect.write_file c.to_json ∈ (run_script w s).trace ∧
    getFile (run_script w s).state.fs "token.json" = some c.to_json := by
  obtain ⟨f, sv, op, wr⟩ := w
  cases f <;> cases sv <;> cases op <;> cases wr <;>
    simp_all [run_script, getFile_setFile]

/-- Witness for the amended C3 at a concrete successful world. -/
theorem save_unconditional_witness :
    Effect.write_file "SERIALIZED-CREDENTIAL" ∈ (run_script wOK s0).trace ∧
    getFile (run_script wOK s0).state.fs "token.json"
      = some "SERIALIZED-CREDENTIAL" :=
  save_unconditional wOK s0 cSample rfl rfl

/-- Claim C4: a failure of any of the four effectful steps propagates
    unhandled — the run's outcome is exactly the library's exception,
    whichever step raised it. -/
theorem errors_propagate (w : World) (s : ScriptState) (e : PyError) :
    (w.flowResult = Except.error e →
      (run_script w s).outcome = Except.error e) ∧
    (w.flowResult = Except.ok () → w.serverResult = Except.error e →
      (run_script w s).outcome = Except.error e) ∧
    (∀ c, w.flowResult = Except.ok () → w.serverResult = Except.ok c →
      w.openResult = Except.error e →
      (run_script w s).outcome = Except.error e) ∧
    (∀ c, w.flowResult = Except.ok () → w.serverResult = Except.ok c →
      w.openResult = Except.ok () → w.writeResult = Except.error e →
      (run_script w s).outcome = Except.error e) := by
  refine ⟨fun h1 => ?_, fun h1 h2 => ?_, fun c h1 h2 h3 => ?_,
    fun c h1 h2 h3 h4 => ?_⟩
  · simp [run_script, h1]
  · simp [run_script, h1, h2]
  · simp [run_script, h1, h2, h3]
  · simp [run_script, h1, h2, h3, h4]

/-- Witness for C4: the exception surfaces unhandled from each of the
    four steps at concrete worlds. -/
theorem errors_propagate_witness :
    (run_script wFlowErr s0).outcome = Except.error eSample ∧
    (run_script wServerErr s0).outcome = Except.error eSample ∧
    (run_script wOpenErr s0).outcome = Except.error eSample ∧
    (run_script wWriteErr s0).outcome = Except.error eSample :=
  ⟨(errors_propagate wFlowErr s0 eSample).1 rfl,
   (errors_propagate wServerErr s0 eSample).2.1 rfl rfl,
   (errors_propagate wOpenErr s0 eSample).2.2.1 cSample rfl rfl rfl,
   (errors_propagate wWriteErr s0 eSample).2.2.2 cSample rfl rfl rfl rfl⟩

/-- Claim C5: when every step succeeds, the effect trace is exactly the
    linear sequence construct the flow, run the local server, print the
    refresh token, then write the credential file (open, write, close) —
    nothing reordered, repeated, or skipped. -/
theorem linear_sequence (w : World) (s : ScriptState) (c : Credentials)
    (h1 : w.flowResult = Except.ok ()) (h2 : w.serverResult = Except.ok c)
    (h3 : w.openResult = Except.ok ()) (h4 : w.writeResult = Except.ok ()) :
    (run_script w s).trace =
      [Effect.construct_flow "credentials.json" SCOPES,
       Effect.run_local_server 0,
       Effect.print_line ("Refresh Token: " ++ pyStr c.refresh_token),
       Effect.open_file "token.json" "w",
       Effect.write_file c.to_json,
       Effect.close_file "token.json"] := by
  simp [run_script, h1, h2, h3, h4]

/-- Witness for C5 at a concrete successful world. -/
theorem linear_sequence_witness :
    (run_script wOK s0).trace =
      [Effect.construct_flow "credentials.json" SCOPES,
       Effect.run_local_server 0,
       Effect.print_line ("Refresh Token: " ++ pyStr cSample.refresh_token),
       Effect.open_file "token.json" "w",
       Effect.write_file cSample.to_json,
       Effect.close_file "token.json"] :=
  linear_sequence wOK s0 cSample rfl rfl rfl rfl

/-- Claim C6: in every execution, whatever the library results, the very
    first effect is the flow constructor applied to the fixed filename
    credentials.json and the fixed one-element scope list containing only
    the calendar-access URI. -/
theorem fixed_constructor_arguments (w : World) (s : ScriptState) :
    (run_script w s).trace.head? =
      some (Effect.construct_flow "credentials.json" SCOPES) ∧
    SCOPES = ["https://www.googleapis.com/auth/calendar"] := by
  refine ⟨?_, rfl⟩
  obtain ⟨f, sv, op, wr⟩ := w
  cases f <;> cases sv <;> cases op <;> cases wr <;> simp [run_script]

/-- Claim C7: in every execution that reaches the save step (the open of
    token.json succeeds), the last effect is closing the file — also when
    the write itself raises. -/
theorem scoped_file_close (w : World) (s : ScriptState)
    (h1 : w.flowResult = Except.ok ())
    (h2 : ∃ c, w.serverResult = Except.ok c)
    (h3 : w.openResult = Except.ok ()) :
    (run_script w s).trace.getLast? = some (Effect.close_file "token.json") := by
  obtain ⟨c, h2⟩ := h2
  cases hw : w.writeResult <;> simp [run_script, h1, h2, h3, hw]

/-- Witness for C7 at a concrete world whose write raises: the file is
    still closed. -/
theorem scoped_file_close_witness :
    (run_script wWriteErr s0).trace.getLast?
      = some (Effect.close_file "token.json") :=
  scoped_file_close wWriteErr s0 rfl ⟨cSample, rfl⟩ rfl

/-- Claim C8: the script's observable behaviour is independent of the
    command line and the environment: with the same library results and
    the same initial state, any two invocations produce identical runs. -/
theorem os_inputs_irrelevant (a1 a2 : List String)
    (e1 e2 : List (String × String)) (w : World) (s : ScriptState) :
    run_script_os a1 e1 w s = run_script_os a2 e2 w s := rfl

/-- Claim C9: the output filename is the literal token.json opened in
    truncating write mode `w`, so a pre-existing file of that name is
    silently overwritten with the new serialized credential. -/
theorem token_file_overwritten (w : World) (c : Credentials)
    (out0 old : String) (fs0 : List (String × String))
    (h1 : w.flowResult = Except.ok ()) (h2 : w.serverResult = Except.ok c)
    (h3 : w.openResult = Except.ok ()) (h4 : w.writeResult = Except.ok ()) :
    Effect.open_file "token.json" "w"
        ∈ (run_script w ⟨out0, ("token.json", old) :: fs0⟩).trace ∧
    getFile (run_script w ⟨out0, ("token.json", old) :: fs0⟩).state.fs
        "token.json" = some c.to_json := by
  constructor
  · simp [run_script, h1, h2, h3, h4]
  · simp [run_script, h1, h2, h3, h4, getFile_setFile]

/-- Witness for C9: a pre-existing token.json with old contents is
    replaced by the new serialization. -/
theorem token_file_overwritten_witness :
    Effect.open_file "token.json" "w"
        ∈ (run_script wOK ⟨"", [("token.json", "OLD-CONTENTS")]⟩).trace ∧
    getFile (run_script wOK ⟨"", [("token.json", "OLD-CONTENTS")]⟩).state.fs
        "token.json" = some "SERIALIZED-CREDENTIAL" :=
  token_file_overwritten wOK cSample "" "OLD-CONTENTS" [] rfl rfl rfl rfl

/-- Claim C10: the refresh-token field is not validated: when the flow
    succeeds but the credential's refresh token is absent, the run still
    completes, prints the label followed by `None`, and writes the full
    serialized credential to token.json. -/
theorem no_refresh_token_validation (w : World) (s : ScriptState)
    (c : Credentials) (h1 : w.flowResult = Except.ok ())
    (h2 : w.serverResult = Except.ok c) (h3 : c.refresh_token = none)
    (h4 : w.openResult = Except.ok ()) (h5 : w.writeResult = Except.ok ()) :
    (run_script w s).outcome = Except.ok () ∧
    (run_script w s).state.stdout
        = s.stdout ++ "Refresh Token: " ++ "None" ++ "\n" ∧
    getFile (run_script w s).state.fs "token.json" = some c.to_json := by
  refine ⟨?_, ?_, ?_⟩ <;>
    simp [run_script, h1, h2, h3, h4, h5, pyStr, String.append_assoc,
      getFile_setFile]

/-- Witness for C10 at a concrete world returning a credential without a
    refresh token. -/
theorem no_refresh_token_validation_witness :
    (run_script wNone s0).outcome = Except.ok () ∧
    (run_script wNone s0).state.stdout
        = "" ++ "Refresh Token: " ++ "None" ++ "\n" ∧
    getFile (run_script wNone s0).state.fs "token.json"
      = some "SERIALIZED-WITHOUT-RT" :=
  no_refresh_token_validation wNone s0 cNone rfl rfl rfl rfl rfl

end SmartVoiceAI
